import Mathlib

/-!
Shallow embedding of `src/main.py` of the weight-tracker application.

The persistence backend (Firebase realtime database) is an external
collaborator: the device registry stored under the path `"devices"` is
modelled as an association list with Python-dict semantics (unique keys,
update-in-place on re-assignment).  `hashlib.sha256(...).hexdigest()` is an
external library call and is modelled as an abstract digest function passed
as an explicit argument `hash_pasword` (the misspelling is the source's).
`datetime.now().isoformat()` and `uuid.uuid4()` are modelled as explicit
arguments (`now`, `fresh`).  A backend write that may raise is modelled by
a boolean `set_fails` flag driving an `Except`-valued attempt function.
-/

namespace WeightTracker

/-- One entry of the `"devices"` registry: the dict written at
`main.py:100-104`, with fields `user_type`, `password` (the stored digest)
and `registerd_at` (the source's spelling). -/
structure DeviceRegistration where
  user_type : String
  password : String
  registerd_at : String
deriving DecidableEq, Repr

/-- The device registry fetched from `db.reference("devices").get() or {}`:
a Python dict from device id to registration, embedded as an association
list with unique keys. -/
abbrev Registry := List (String × DeviceRegistration)

/-- Python dict assignment `devices[device_id] = v`: replace the value in
place if the key is present, otherwise append the new pair at the end. -/
def dictInsert (k : String) (v : DeviceRegistration) : Registry → Registry
  | [] => [(k, v)]
  | (k₀, v₀) :: rest =>
      if k₀ == k then (k₀, v) :: rest else (k₀, v₀) :: dictInsert k v rest

/-- The duplicate-role scan of `main.py:96-98`:
`for device in devices.values(): if device["user_type"] == user_type: False`.
The loop only evaluates this condition; the bare `False` on line 98 is an
expression statement with no effect, so the scan's outcome is discarded by
`register_device`. -/
def role_taken (devices : Registry) (user_type : String) : Bool :=
  devices.any fun kv => kv.2.user_type == user_type

/-- Streamlit session state (`st.session_state`) restricted to the keys the
program uses: `device_id` (absent until `get_device_id` runs), the
`logged_in` flag and the `user_type` role (set to `None` while logged out). -/
structure Session where
  device_id : Option String
  logged_in : Bool
  user_type : Option String
deriving DecidableEq, Repr

/-- `get_device_id` (`main.py:22-34`): if no `device_id` is in the session,
store a freshly generated identifier (`str(uuid.uuid4())`, modelled by the
`fresh` argument) and return the stored identifier. -/
def get_device_id (fresh : String) (s : Session) : String × Session :=
  match s.device_id with
  | none => (fresh, { s with device_id := some fresh })
  | some d => (d, s)

/-- `verify_device` (`main.py:54-70`): `devices.get(device_id)` on the
fetched registry — the first (unique) entry under that key, if any. -/
def verify_device (registry : Registry) (device_id : String) :
    Option DeviceRegistration :=
  registry.lookup device_id

/-- The body of the `try:` block of `register_device` (`main.py:91-106`):
fetch the registry, run the duplicate-role scan (whose result line 98
discards), assign the new registration under `device_id`, then perform the
backend write `ref.set(devices)` — which raises when `set_fails` — and
return `True`. -/
def register_device_attempt (hash_pasword : String → String) (now : String)
    (set_fails : Bool) (registry : Registry)
    (device_id user_type password : String) :
    Except String (Registry × Bool) :=
  let devices := registry
  let _dup := role_taken devices user_type
  let devices := dictInsert device_id
    ⟨user_type, hash_pasword password, now⟩ devices
  if set_fails then Except.error "device registration error"
  else Except.ok (devices, true)

/-- `register_device` (`main.py:73-109`): the `try`/`except` wrapper around
the attempt.  The result pairs the registry as persisted in the backend
(unchanged when the write raised) with the returned boolean; any exception
is caught and turned into `False` (`main.py:107-109`). -/
def register_device (hash_pasword : String → String) (now : String)
    (set_fails : Bool) (registry : Registry)
    (device_id user_type password : String) : Registry × Bool :=
  match register_device_attempt hash_pasword now set_fails registry
      device_id user_type password with
  | Except.ok r => r
  | Except.error _ => (registry, false)

/-- `authenticate` (`main.py:112-132`): look the device up, compare the
stored digest with the digest of the submitted password; on a match copy
the registration's `user_type` into the session and return `True`,
otherwise return `False` with the session untouched. -/
def authenticate (hash_pasword : String → String) (registry : Registry)
    (s : Session) (device_id password : String) : Bool × Session :=
  match verify_device registry device_id with
  | some device_info =>
      if device_info.password == hash_pasword password then
        (true, { s with user_type := some device_info.user_type })
      else (false, s)
  | none => (false, s)

/-- The logout handler (`main.py:236-239`): set `logged_in` to `False` and
`user_type` to `None`. -/
def logout (s : Session) : Session :=
  { s with logged_in := false, user_type := none }

/-- A weight record as the spec describes it: identifier, measurement
timestamp (dates embedded as integers), numeric weight and a note. -/
structure WeightRecord where
  id : String
  timestamp : Int
  weight : Int
  note : String
deriving DecidableEq, Repr

/-- Modelled from the spec: `WeightDatabase.get_records` lives in
`database.py`, which is not part of the provided source; per the spec,
called with no bounds it "returns all records regardless of timestamp", so
it is the identity on the role's full history, here supplied as a list. -/
def get_records (history : List WeightRecord) : List WeightRecord :=
  history

/-- The editable record list of `main.py:223-232`: pick the logged-in
role's database (`db1` when `user_type` equals the first configured role,
`db2` otherwise), fetch all its records, and keep those with
`start_date <= r.timestamp <= end_date`. -/
def editable_records (user_type role0 : String)
    (records1 records2 : List WeightRecord)
    (start_date end_date : Int) : List WeightRecord :=
  (get_records (if user_type == role0 then records1 else records2)).filter
    fun r => decide (start_date ≤ r.timestamp) && decide (r.timestamp ≤ end_date)

theorem lookup_dictInsert_self (k : String) (v : DeviceRegistration) :
    ∀ l : Registry, (dictInsert k v l).lookup k = some v := by
  intro l
  induction l with
  | nil => simp [dictInsert, List.lookup]
  | cons hd tl ih =>
      obtain ⟨k₀, v₀⟩ := hd
      by_cases h : k₀ = k
      · simp [dictInsert, h, List.lookup]
      · have hb : (k₀ == k) = false := by simp [h]
        have hb' : (k == k₀) = false := by
          simp [beq_iff_eq]
          exact fun he => h he.symm
        simp [dictInsert, hb, List.lookup, hb', ih]

theorem lookup_dictInsert_ne (k k' : String) (v : DeviceRegistration)
    (hne : k' ≠ k) :
    ∀ l : Registry, (dictInsert k v l).lookup k' = l.lookup k' := by
  intro l
  have hb : (k' == k) = false := by simp [beq_iff_eq, hne]
  induction l with
  | nil => simp [dictInsert, List.lookup, hb]
  | cons hd tl ih =>
      obtain ⟨k₀, v₀⟩ := hd
      by_cases h : k₀ = k
      · subst h
        simp [dictInsert, List.lookup, hb]
      · have hb0 : (k₀ == k) = false := by simp [h]
        simp [dictInsert, hb0, List.lookup, ih]

/-- C1: for every registry in which some already-registered device holds
role `u`, registering a device `d` not in the registry still inserts the
new registration and returns `true` when the backend write succeeds: the
duplicate-role scan is evaluated but never rejects a registration. -/
theorem register_device_ignores_role_conflict
    (hash_pasword : String → String) (now : String) (registry : Registry)
    (d u p : String)
    (htaken : role_taken registry u = true)
    (hnew : registry.lookup d = none) :
    (register_device hash_pasword now false registry d u p).2 = true ∧
      (register_device hash_pasword now false registry d u p).1.lookup d =
        some ⟨u, hash_pasword p, now⟩ := by
  constructor
  · rfl
  · simpa [register_device, register_device_attempt] using
      lookup_dictInsert_self d ⟨u, hash_pasword p, now⟩ registry

theorem register_device_ignores_role_conflict_witness :
    role_taken [("d0", ⟨"A", "h0", "t0"⟩)] "A" = true ∧
      (([("d0", ⟨"A", "h0", "t0"⟩)] : Registry).lookup "d1" = none) ∧
      (register_device (fun s => s) "t1" false
          [("d0", ⟨"A", "h0", "t0"⟩)] "d1" "A" "pw").2 = true ∧
      (register_device (fun s => s) "t1" false
          [("d0", ⟨"A", "h0", "t0"⟩)] "d1" "A" "pw").1.lookup "d1" =
        some ⟨"A", "pw", "t1"⟩ := by
  refine ⟨by decide, by decide, ?_⟩
  exact register_device_ignores_role_conflict (fun s => s) "t1"
    [("d0", ⟨"A", "h0", "t0"⟩)] "d1" "A" "pw" (by decide) (by decide)

/-- C4: when the backend write inside `register_device` raises, the
exception is caught and the call returns `false` (with the persisted
registry unchanged); the failure of the attempt never propagates. -/
theorem register_device_catches_write_failure
    (hash_pasword : String → String) (now : String) (registry : Registry)
    (d u p : String) :
    (∃ e, register_device_attempt hash_pasword now true registry d u p =
        Except.error e) ∧
      register_device hash_pasword now true registry d u p =
        (registry, false) :=
  ⟨⟨"device registration error", rfl⟩, rfl⟩

/-- C5: re-registering an already-registered `device_id` with a new role
and password succeeds and replaces that device's stored registration
(role, digest, registration time) — last write wins, no uniqueness guard
on `device_id`. -/
theorem register_device_overwrites_existing
    (hash_pasword : String → String) (now : String) (registry : Registry)
    (d u p : String) (old : DeviceRegistration)
    (hold : registry.lookup d = some old) :
    (register_device hash_pasword now false registry d u p).2 = true ∧
      (register_device hash_pasword now false registry d u p).1.lookup d =
        some ⟨u, hash_pasword p, now⟩ := by
  constructor
  · rfl
  · simpa [register_device, register_device_attempt] using
      lookup_dictInsert_self d ⟨u, hash_pasword p, now⟩ registry

theorem register_device_overwrites_existing_witness :
    (([("d0", ⟨"A", "h0", "t0"⟩)] : Registry).lookup "d0" =
        some ⟨"A", "h0", "t0"⟩) ∧
      (register_device (fun s => s) "t1" false
          [("d0", ⟨"A", "h0", "t0"⟩)] "d0" "B" "pw").2 = true ∧
      (register_device (fun s => s) "t1" false
          [("d0", ⟨"A", "h0", "t0"⟩)] "d0" "B" "pw").1.lookup "d0" =
        some ⟨"B", "pw", "t1"⟩ := by
  refine ⟨by decide, ?_⟩
  exact register_device_overwrites_existing (fun s => s) "t1"
    [("d0", ⟨"A", "h0", "t0"⟩)] "d0" "B" "pw" ⟨"A", "h0", "t0"⟩ (by decide)

/-- C8: a successful `register_device` call preserves every other device's
registration: for any `d'` different from the registered device, the entry
stored under `d'` afterwards equals the one stored before. -/
theorem register_device_frame
    (hash_pasword : String → String) (now : String) (set_fails : Bool)
    (registry : Registry) (d u p d' : String)
    (hne : d' ≠ d)
    (hok : (register_device hash_pasword now set_fails registry d u p).2 =
      true) :
    (register_device hash_pasword now set_fails registry d u p).1.lookup d' =
      registry.lookup d' := by
  cases set_fails with
  | true => simp [register_device, register_device_attempt] at hok
  | false =>
      simpa [register_device, register_device_attempt] using
        lookup_dictInsert_ne d d' ⟨u, hash_pasword p, now⟩ hne registry

theorem register_device_frame_witness :
    ("d0" : String) ≠ "d1" ∧
      (register_device (fun s => s) "t1" false
          [("d0", ⟨"A", "h0", "t0"⟩)] "d1" "B" "pw").2 = true ∧
      (register_device (fun s => s) "t1" false
          [("d0", ⟨"A", "h0", "t0"⟩)] "d1" "B" "pw").1.lookup "d0" =
        (([("d0", ⟨"A", "h0", "t0"⟩)] : Registry).lookup "d0") := by
  refine ⟨by decide, by decide, ?_⟩
  exact register_device_frame (fun s => s) "t1" false
    [("d0", ⟨"A", "h0", "t0"⟩)] "d1" "B" "pw" "d0" (by decide) (by decide)

/-- C2: after a successful `register_device (d, u, p)`, authenticating `d`
with `p` succeeds, and authenticating with any password whose digest
differs from that of `p` fails. -/
theorem register_then_authenticate
    (hash_pasword : String → String) (now : String) (registry : Registry)
    (s : Session) (d u p : String) :
    (register_device hash_pasword now false registry d u p).2 = true ∧
      (authenticate hash_pasword
        (register_device hash_pasword now false registry d u p).1
        s d p).1 = true ∧
      ∀ p', hash_pasword p' ≠ hash_pasword p →
        (authenticate hash_pasword
          (register_device hash_pasword now false registry d u p).1
          s d p').1 = false := by
  have hlook : verify_device
      (register_device hash_pasword now false registry d u p).1 d =
      some ⟨u, hash_pasword p, now⟩ := by
    simpa [verify_device, register_device, register_device_attempt] using
      lookup_dictInsert_self d ⟨u, hash_pasword p, now⟩ registry
  refine ⟨rfl, ?_, ?_⟩
  · simp [authenticate, hlook]
  · intro p' hne
    have hb : (hash_pasword p == hash_pasword p') = false := by
      simp [beq_iff_eq]
      exact fun he => hne he.symm
    simp [authenticate, hlook, hb]

theorem register_then_authenticate_witness :
    (register_device (fun s => s) "t0" false [] "d1" "A" "p1").2 = true ∧
      (authenticate (fun s => s)
        (register_device (fun s => s) "t0" false [] "d1" "A" "p1").1
        ⟨none, false, none⟩ "d1" "p1").1 = true ∧
      (authenticate (fun s => s)
        (register_device (fun s => s) "t0" false [] "d1" "A" "p1").1
        ⟨none, false, none⟩ "d1" "wrong").1 = false := by
  obtain ⟨h1, h2, h3⟩ := register_then_authenticate (fun s => s) "t0" []
    ⟨none, false, none⟩ "d1" "A" "p1"
  exact ⟨h1, h2, h3 "wrong" (by decide)⟩

/-- C3: `authenticate` returns `true` exactly when the device has a
registration whose stored digest equals the digest of the submitted
password, and in that case the registration's role is copied into the
session's `user_type`. -/
theorem authenticate_spec
    (hash_pasword : String → String) (registry : Registry) (s : Session)
    (d p : String) :
    ((authenticate hash_pasword registry s d p).1 = true ↔
      ∃ info, verify_device registry d = some info ∧
        info.password = hash_pasword p) ∧
      ∀ info, verify_device registry d = some info →
        info.password = hash_pasword p →
        authenticate hash_pasword registry s d p =
          (true, { s with user_type := some info.user_type }) := by
  cases h : verify_device registry d with
  | none =>
      constructor
      · simp [authenticate, h]
      · intro info hinfo
        simp [h] at hinfo
  | some info =>
      constructor
      · by_cases hpw : info.password = hash_pasword p
        · simp [authenticate, h, hpw]
        · have hb : (info.password == hash_pasword p) = false := by
            simp [beq_iff_eq, hpw]
          simp [authenticate, h, hb, hpw]

      · intro info₀ hinfo hpw
        injection hinfo with he
        subst he
        have hb : (info.password == hash_pasword p) = true := by
          simp [beq_iff_eq, hpw]
        simp [authenticate, h, hb]

theorem authenticate_spec_witness :
    authenticate (fun s => s) [("d1", ⟨"A", "pw", "t0"⟩)]
      ⟨none, false, none⟩ "d1" "pw" =
      (true, ⟨none, false, some "A"⟩) := by
  have h := (authenticate_spec (fun s => s) [("d1", ⟨"A", "pw", "t0"⟩)]
    ⟨none, false, none⟩ "d1" "pw").2 ⟨"A", "pw", "t0"⟩ (by decide) rfl
  exact h

/-- C9: when `authenticate` returns `false` (unregistered device or digest
mismatch) the session is left unchanged; in particular `user_type` is not
modified on the failure path. -/
theorem authenticate_failure_preserves_session
    (hash_pasword : String → String) (registry : Registry) (s : Session)
    (d p : String)
    (hfail : (authenticate hash_pasword registry s d p).1 = false) :
    (authenticate hash_pasword registry s d p).2 = s := by
  cases h : verify_device registry d with
  | none => simp [authenticate, h]
  | some info =>
      cases hpw : (info.password == hash_pasword p) with
      | true => simp [authenticate, h, hpw] at hfail
      | false => simp [authenticate, h, hpw]

theorem authenticate_failure_preserves_session_witness :
    (authenticate (fun s => s) [] ⟨none, false, none⟩ "d1" "pw").1 =
        false ∧
      (authenticate (fun s => s) [] ⟨none, false, none⟩ "d1" "pw").2 =
        ⟨none, false, none⟩ :=
  ⟨by decide, authenticate_failure_preserves_session (fun s => s) []
    ⟨none, false, none⟩ "d1" "pw" (by decide)⟩

/-- C7: explicit logout from the logged-in state sets the session's
`logged_in` flag to `false` and clears the session's role, returning the
session to the logged-out state. -/
theorem logout_clears_session (s : Session) :
    (logout s).logged_in = false ∧ (logout s).user_type = none :=
  ⟨rfl, rfl⟩

/-- C10: `get_device_id` is idempotent within a session: the first call on
a session without a device id stores the freshly generated identifier and
returns it, and every subsequent call returns that same identifier without
modifying the session. -/
theorem get_device_id_idempotent
    (fresh fresh' : String) (s : Session)
    (hnone : s.device_id = none) :
    (get_device_id fresh s).1 = fresh ∧
      (get_device_id fresh s).2 = { s with device_id := some fresh } ∧
      get_device_id fresh' (get_device_id fresh s).2 =
        ((get_device_id fresh s).1, (get_device_id fresh s).2) := by
  simp [get_device_id, hnone]

theorem get_device_id_idempotent_witness :
    (Session.device_id ⟨none, false, none⟩ = none) ∧
      (get_device_id "u1" ⟨none, false, none⟩).1 = "u1" ∧
      (get_device_id "u1" ⟨none, false, none⟩).2 =
        ⟨some "u1", false, none⟩ ∧
      get_device_id "u2" (get_device_id "u1" ⟨none, false, none⟩).2 =
        ((get_device_id "u1" ⟨none, false, none⟩).1,
          (get_device_id "u1" ⟨none, false, none⟩).2) :=
  ⟨rfl, get_device_id_idempotent "u1" "u2" ⟨none, false, none⟩ rfl⟩

/-- C6: the editable record list shown to the logged-in user contains
exactly those of their role's records whose timestamp `t` satisfies
`start_date <= t <= end_date`, inclusive on both ends (the first role's
records when `user_type` is the first configured role, the second role's
otherwise). -/
theorem editable_records_spec
    (u role0 : String) (records1 records2 : List WeightRecord)
    (sd ed : Int) (r : WeightRecord) :
    (u = role0 →
      (r ∈ editable_records u role0 records1 records2 sd ed ↔
        r ∈ records1 ∧ sd ≤ r.timestamp ∧ r.timestamp ≤ ed)) ∧
      (u ≠ role0 →
        (r ∈ editable_records u role0 records1 records2 sd ed ↔
          r ∈ records2 ∧ sd ≤ r.timestamp ∧ r.timestamp ≤ ed)) := by
  constructor
  · intro h
    simp [editable_records, get_records, List.mem_filter, h]
  · intro h
    have hb : (u == role0) = false := by simp [beq_iff_eq, h]
    simp [editable_records, get_records, List.mem_filter, hb]

theorem editable_records_spec_witness :
    (⟨"r1", 5, 70, ""⟩ : WeightRecord) ∈
        editable_records "A" "A" [⟨"r1", 5, 70, ""⟩] [] 0 10 ↔
      (⟨"r1", 5, 70, ""⟩ : WeightRecord) ∈ [(⟨"r1", 5, 70, ""⟩ : WeightRecord)] ∧
        (0 : Int) ≤ 5 ∧ (5 : Int) ≤ 10 :=
  (editable_records_spec "A" "A" [⟨"r1", 5, 70, ""⟩] [] 0 10
    ⟨"r1", 5, 70, ""⟩).1 rfl

end WeightTracker
